import Mathlib

/-!
Shallow embedding of the shard consumption engine of the `read-kinesis`
repository: `src/retry.js` (the retry executor) and `src/shard-reader.js`
(the shard client and cursor/iteration engine).

JavaScript semantics are modelled explicitly:
  * optional / nullable string fields are `Option String`; JS truthiness of a
    string value (`undefined`, `null` and `""` are falsy) is `jsTruthyStr`;
  * all numbers flowing through the engine are integers (batch sizes, backoff
    milliseconds, lag milliseconds, epoch-millisecond timestamps), modelled as
    `ℤ`; a number that can become `NaN` is `Option ℤ` with `none` for `NaN`
    (only the backoff-wait duration can become `NaN`, via an `undefined`
    multiplicand);
  * a `Math.random()` value is an explicit fraction `JsRandom` in `[0, 1)`;
    `Math.floor` of an integer times such a fraction is integer floor
    division (`jsFloorMulRandom`);
  * `Math.round (u * (n/d))` for an integer `u` is `jsRoundMul u n d`,
    i.e. `⌊u·n/d + 1/2⌋` (JS rounds halves toward +∞) computed by integer
    floor division — the bridging lemmas `jsRoundMul_three_two` and
    `jsRoundMul_one_two` relate it to `Int.floor` over `ℚ`;
  * `new Set(xs)` keeps the first occurrence of each element in order.

The remote Kinesis service and `Math.random` are modelled as a scripted
environment threaded through every operation in a state record `St`:
`getRecords` calls consume `St.outcomes`, `getShardIterator` calls consume
`St.iterResults` (the environment answers iterator requests with the next
scripted token), `Math.random()` consumes `St.randoms`.  Every remote call
and every backoff wait is appended to the trace `St.events`.
-/

namespace ReadKinesis

/-- JS truthiness for an optional string: `undefined`/`null`/`""` are falsy. -/
def jsTruthyStr : Option String → Bool
  | none => false
  | some s => s ≠ ""

/-- `Math.round(u * (num/den))` for an integer `u` and a positive literal
fraction `num/den`: JS rounds halves toward +∞, so this is
`⌊(u·num)/den + 1/2⌋ = (2·u·num + den) / (2·den)` with integer floor
division. -/
def jsRoundMul (u num den : ℤ) : ℤ := (2 * u * num + den) / (2 * den)

/-- The value returned by one `Math.random()` call: a fraction
`num/den ∈ [0, 1)`. -/
structure JsRandom where
  num : ℕ
  den : ℕ
  deriving Repr, DecidableEq

/-- `Math.floor(d * r)` for an integer `d` and a random fraction `r`: integer
floor division (exact for `r.den > 0`). -/
def jsFloorMulRandom (d : ℤ) (r : JsRandom) : ℤ :=
  (d * (r.num : ℤ)) / (r.den : ℤ)

/-- Insertion-order deduplication, the iteration order of `new Set(xs)`:
each element is kept at its first occurrence. -/
def jsSetDedup (l : List String) : List String :=
  l.foldl (fun acc x => if x ∈ acc then acc else acc ++ [x]) []

/-- A plain JS error as thrown by the AWS SDK: its `name`, `message`, the
AWS error `code`, and the SDK-set `retryable` flag inspected by the retry
executor (`undefined` on non-SDK errors is modelled as `false`). -/
structure JsErrorBase where
  name : String
  message : String
  code : String
  retryable : Bool
  deriving Repr, DecidableEq

/-- An error value flowing through `retry.js`: either a plain error from an
attempt, or one of the two wrapper classes `OutOfRetriesError` /
`NonRetryableError`, each of which stores the last error and the previous
attempts' errors. -/
inductive JsError where
  | base (e : JsErrorBase)
  | outOfRetries (lastError : JsError) (prevErrors : List JsError)
  | nonRetryableWrap (lastError : JsError) (prevErrors : List JsError)
  deriving Repr

/-- `error.retryable` under JS truthiness: the wrapper classes never set the
property, so it reads as `undefined` (falsy) on them. -/
def JsError.isRetryable : JsError → Bool
  | .base e => e.retryable
  | .outOfRetries _ _ => false
  | .nonRetryableWrap _ _ => false

/-- `error.name`: the wrapper classes set their class name. -/
def JsError.errName : JsError → String
  | .base e => e.name
  | .outOfRetries _ _ => "OutOfRetriesError"
  | .nonRetryableWrap _ _ => "NonRetryableError"

/-- `error.message`, as built by the constructors in `retry.js`: the
`OutOfRetriesError` message counts all errors (previous attempts plus the
last one) and joins the distinct error names, in first-seen order, with
`", "`. -/
def JsError.message : JsError → String
  | .base e => e.message
  | .outOfRetries lastError prevErrors =>
      let allErrors := prevErrors ++ [lastError]
      "Ran out of retries after " ++ toString allErrors.length ++ " error(s): " ++
        String.intercalate ", " (jsSetDedup (allErrors.map JsError.errName))
  | .nonRetryableWrap lastError _ =>
      "Retryable caught a non-retryable error: " ++ lastError.errName ++ ": " ++
        lastError.message

/-- A record as returned by `getRecords`; only `SequenceNumber` is ever
inspected by the engine (other fields are passed through untouched and are
elided from the model). -/
structure KRecord where
  SequenceNumber : String
  deriving Repr, DecidableEq

/-- The response body of a `kinesis.getRecords` call. -/
structure GetRecordsResponse where
  Records : List KRecord
  NextShardIterator : Option String
  MillisBehindLatest : ℤ
  deriving Repr, DecidableEq

/-- The scripted result of one `kinesis.getRecords` call. -/
inductive FetchOutcome where
  | success (resp : GetRecordsResponse)
  | failure (e : JsErrorBase)
  deriving Repr

/-- One entry of the observable trace: a remote call or a backoff wait.
A wait of `none` milliseconds is a `NaN` duration. -/
inductive Event where
  | getRecords (shardIterator : String) (limit : ℤ)
  | getShardIterator (iteratorType : String) (sequenceNumber : Option String)
      (timestamp : Option ℤ)
  | wait (ms : Option ℤ)
  deriving Repr, DecidableEq

/-- The threaded environment/state: the scripted service responses, the
`Math.random` stream, the process-wide adaptive batch size, and the trace. -/
structure St where
  outcomes : List FetchOutcome
  iterResults : List String
  randoms : List JsRandom
  batchSize : ℤ
  events : List Event
  deriving Repr

/-- Append an event to the trace. -/
def emitEvent (e : Event) (st : St) : St := { st with events := st.events ++ [e] }

/-- Consume one `Math.random()` value from the scripted stream. -/
def takeRandom (st : St) : JsRandom × St :=
  (st.randoms.headD ⟨0, 1⟩, { st with randoms := st.randoms.tail })

/-! ### `retry.js` — the retry executor -/

def MAX_RETRIES : ℕ := 10
def INITIAL_BACKOFF_MS : ℤ := 10
def BACKOFF_DITHER_FACTOR : ℤ := 1

/-- The backoff wait performed before a retry:
`const dither = Math.floor(backoffDither * Math.random()); await wait(backoff + dither)`.
`backoffDither` is `Option ℤ` because the recursive call in the source omits
the argument, making it `undefined` (`none`); then the computed duration is
`NaN` (`none`). `Math.random()` is consumed unconditionally. -/
def waitStep (backoff : ℤ) (backoffDither : Option ℤ) (st : St) : St :=
  let (r, st1) := takeRandom st
  emitEvent (.wait (backoffDither.map fun d => backoff + jsFloorMulRandom d r))
    st1

/-- `withRetryRecursive(f, prevErrors, retries, backoff, backoffDither)` from
`retry.js`.  Note the faithful slip: the recursive call passes only four
arguments (`f, allErrors, retries - 1, backoff + backoff`), so
`backoffDither` is `undefined` (`none`) on every call after the first. -/
def withRetryRecursive (op : St → Except JsError α × St)
    (prevErrors : List JsError) (retries : ℕ) (backoff : ℤ)
    (backoffDither : Option ℤ) (st : St) : Except JsError α × St :=
  match op st with
  | (.ok a, st') => (.ok a, st')
  | (.error e, st') =>
    if e.isRetryable then
      match retries with
      | r + 1 =>
          let st2 := if backoff ≠ 0 then waitStep backoff backoffDither st' else st'
          withRetryRecursive op (prevErrors ++ [e]) r (backoff + backoff) none st2
      | 0 => (.error (.outOfRetries e prevErrors), st')
    else (.error (.nonRetryableWrap e prevErrors), st')

/-- `withRetry(f)` from `retry.js`: full budget of `MAX_RETRIES`, initial
backoff `INITIAL_BACKOFF_MS`, initial dither bound
`INITIAL_BACKOFF_MS * BACKOFF_DITHER_FACTOR`. -/
def withRetry (op : St → Except JsError α × St) (st : St) : Except JsError α × St :=
  withRetryRecursive op [] MAX_RETRIES INITIAL_BACKOFF_MS
    (some (INITIAL_BACKOFF_MS * BACKOFF_DITHER_FACTOR)) st

/-! ### `shard-reader.js` — adaptive batch size -/

-- Max value for Limit, per the GetRecords API.
def MAX_BATCH_SIZE : ℤ := 10000
/-- `Math.floor(MAX_BATCH_SIZE / 4)` (exact: 2500). -/
def INITIAL_BATCH_SIZE : ℤ := MAX_BATCH_SIZE / 4
def MIN_BATCH_SIZE : ℤ := 1

/-- `batchSizeWasSuccessful(usedBatchSize)`: the new value of the shared
`batchSize` given its current value `b` and the size used for the attempt
(`BATCH_SIZE_INCREASE_MULTIPLE = 1.5 = 3/2`). -/
def batchSizeWasSuccessful (b usedBatchSize : ℤ) : ℤ :=
  min MAX_BATCH_SIZE (max b (jsRoundMul usedBatchSize 3 2))

/-- `batchSizeWasUnsuccessful(usedBatchSize)`: the new value of the shared
`batchSize` given its current value `b` and the size used for the attempt
(`BATCH_SIZE_DECREASE_MULTIPLE = 0.5 = 1/2`). -/
def batchSizeWasUnsuccessful (b usedBatchSize : ℤ) : ℤ :=
  max MIN_BATCH_SIZE (min b (jsRoundMul usedBatchSize 1 2))

/-! ### `shard-reader.js` — the shard client (`KinesisShard`) -/

/-- The body of `kinesis.getShardIterator(...).promise()).ShardIterator`
against the scripted environment: the request is traced and the environment
answers with the next scripted token (iterator requests are modelled as
always succeeding; no claim exercises their failure). -/
def getShardIteratorOp (iteratorType : String) (sequenceNumber : Option String)
    (timestamp : Option ℤ) (st : St) : Except JsError String × St :=
  let st1 := emitEvent (.getShardIterator iteratorType sequenceNumber timestamp) st
  (.ok (st1.iterResults.headD "scripted-iterator"),
   { st1 with iterResults := st1.iterResults.tail })

/-- `requestShardIterator(iteratorType, sequenceNumber, timestamp)`:
a `getShardIterator` call wrapped in `withRetry`. -/
def requestShardIterator (iteratorType : String) (sequenceNumber : Option String)
    (timestamp : Option ℤ) (st : St) : Except JsError String × St :=
  withRetry (getShardIteratorOp iteratorType sequenceNumber timestamp) st

/-- `getShardIteratorFromLastReadSequenceNumber(lastReadSequenceNumber)`:
`AFTER_SEQUENCE_NUMBER` when the sequence number is truthy, else
`TRIM_HORIZON`. -/
def getShardIteratorFromLastReadSequenceNumber (lastReadSequenceNumber : Option String)
    (st : St) : Except JsError String × St :=
  if jsTruthyStr lastReadSequenceNumber then
    requestShardIterator "AFTER_SEQUENCE_NUMBER" lastReadSequenceNumber none st
  else
    requestShardIterator "TRIM_HORIZON" none none st

/-- `getShardIteratorFromTimestamp(timestamp)`. -/
def getShardIteratorFromTimestamp (timestamp : Option ℤ) (st : St) :
    Except JsError String × St :=
  requestShardIterator "AT_TIMESTAMP" none timestamp st

/-- A `Checkpoint`: a resumable position in one shard.  The caller-supplied
checkpoint may also carry a `timestamp` (a JS `Date`, modelled as epoch
milliseconds; any `Date` object is truthy, so truthiness of the field is
`Option.isSome`). -/
structure Checkpoint where
  shardIterator : Option String := none
  lastReadSequenceNumber : Option String := none
  timestamp : Option ℤ := none
  deriving Repr, DecidableEq

/-- `getShardIteratorFromCheckpoint({shardIterator, lastReadSequenceNumber,
timestamp})`: reuse an existing truthy iterator, else derive from the
sequence number, else from the timestamp, else `TRIM_HORIZON`. -/
def getShardIteratorFromCheckpoint (cp : Checkpoint) (st : St) :
    Except JsError String × St :=
  if jsTruthyStr cp.shardIterator then
    (.ok (cp.shardIterator.getD ""), st)
  else if jsTruthyStr cp.lastReadSequenceNumber then
    getShardIteratorFromLastReadSequenceNumber cp.lastReadSequenceNumber st
  else if cp.timestamp.isSome then
    getShardIteratorFromTimestamp cp.timestamp st
  else
    requestShardIterator "TRIM_HORIZON" none none st

/-- Model artifact: the error produced when the recursion fuel runs out
(the source recursion is unbounded; all theorems supply enough fuel). -/
def fuelExhausted : JsErrorBase :=
  { name := "ModelFuelExhausted", message := "out of model fuel",
    code := "ModelFuelExhausted", retryable := false }

/-- Model artifact: the error produced when the scripted environment has no
outcome left for a `getRecords` call. -/
def scriptExhausted : JsErrorBase :=
  { name := "ModelScriptExhausted", message := "no scripted outcome",
    code := "ModelScriptExhausted", retryable := false }

/-- The `async` attempt body inside `getOneBatchOfRecords` (lines 115–141 of
`shard-reader.js`), parameterised by `recur`, the recursive
`getOneBatchOfRecords` call made on the token-expired recovery path:
read the shared `batchSize`, issue `getRecords`; on success grow the batch
size and return the response; on `ExpiredIteratorException` derive a fresh
iterator from the last read sequence number and re-issue the whole fetch; on
`ProvisionedThroughputExceededException` shrink the batch size and re-throw;
re-throw anything else. -/
def getOneBatchAttempt
    (recur : String → Option String → St → Except JsError GetRecordsResponse × St)
    (shardIterator : String) (lastReadSequenceNumber : Option String)
    (st : St) : Except JsError GetRecordsResponse × St :=
  let usedBatchSize := st.batchSize
  let st1 := emitEvent (.getRecords shardIterator usedBatchSize) st
  match st1.outcomes with
  | [] => (.error (.base scriptExhausted), st1)
  | o :: rest =>
    let st2 := { st1 with outcomes := rest }
    match o with
    | .success resp =>
        (.ok resp,
         { st2 with batchSize := batchSizeWasSuccessful st2.batchSize usedBatchSize })
    | .failure e =>
        if e.code = "ExpiredIteratorException" then
          match getShardIteratorFromLastReadSequenceNumber lastReadSequenceNumber st2 with
          | (.ok newShardIterator, st3) => recur newShardIterator lastReadSequenceNumber st3
          | (.error e', st3) => (.error e', st3)
        else if e.code = "ProvisionedThroughputExceededException" then
          (.error (.base e),
           { st2 with batchSize := batchSizeWasUnsuccessful st2.batchSize usedBatchSize })
        else
          (.error (.base e), st2)

/-- `getOneBatchOfRecords({shardIterator, lastReadSequenceNumber})`: the
attempt body wrapped in a fresh `withRetry`.  The source recursion (on the
token-expired recovery path) is made total with a fuel parameter. -/
def getOneBatchOfRecords (fuel : ℕ) :
    String → Option String → St → Except JsError GetRecordsResponse × St :=
  match fuel with
  | 0 => fun _ _ st => (.error (.base fuelExhausted), st)
  | fuel' + 1 => fun shardIterator lastReadSequenceNumber st =>
      withRetry
        (getOneBatchAttempt (getOneBatchOfRecords fuel') shardIterator
          lastReadSequenceNumber) st

/-- One unfolding of `getOneBatchOfRecords` at positive fuel: a fresh
`withRetry` around the attempt body. -/
theorem getOneBatchOfRecords_succ (fuel : ℕ) (shardIterator : String)
    (lastReadSequenceNumber : Option String) (st : St) :
    getOneBatchOfRecords (fuel + 1) shardIterator lastReadSequenceNumber st =
      withRetryRecursive
        (getOneBatchAttempt (getOneBatchOfRecords fuel) shardIterator
          lastReadSequenceNumber)
        [] MAX_RETRIES INITIAL_BACKOFF_MS
        (some (INITIAL_BACKOFF_MS * BACKOFF_DITHER_FACTOR)) st := rfl

/-! ### `shard-reader.js` — the cursor / iteration engine -/

/-- `last(ari)`: `ari[ari.length - 1]`, `undefined` on an empty array. -/
def last (ari : List α) : Option α := ari.getLast?

/-- `moreToRead(getRecordsResponse)`:
`getRecordsResponse.MillisBehindLatest && getRecordsResponse.NextShardIterator`
under JS truthiness — true exactly when the reported lag is nonzero AND the
next shard iterator is a truthy string. -/
def moreToRead (getRecordsResponse : GetRecordsResponse) : Bool :=
  decide (getRecordsResponse.MillisBehindLatest ≠ 0) &&
    jsTruthyStr getRecordsResponse.NextShardIterator

/-- `getNextCheckpoint(getRecordsResponse, lastCheckpoint)`: the next
checkpoint takes its iterator from the response's `NextShardIterator`, and
its sequence number from the last record of the batch, falling back to the
previous checkpoint's value, falling back to `null` (the produced checkpoint
carries no timestamp). -/
def getNextCheckpoint (getRecordsResponse : GetRecordsResponse)
    (lastCheckpoint : Checkpoint) : Checkpoint :=
  { shardIterator := getRecordsResponse.NextShardIterator
    lastReadSequenceNumber :=
      let fromBatch := (last getRecordsResponse.Records).map KRecord.SequenceNumber
      if jsTruthyStr fromBatch then fromBatch
      else if jsTruthyStr lastCheckpoint.lastReadSequenceNumber then
        lastCheckpoint.lastReadSequenceNumber
      else none
    timestamp := none }

/-- One produced cursor: the records read, the derived checkpoint, and
whether the `next` continuation is present (`hasNext` models the conditional
spread `...(moreToRead(resp) && { next })`). -/
structure ShardReadCursor where
  records : List KRecord
  checkpoint : Checkpoint
  hasNext : Bool
  deriving Repr, DecidableEq

/-- `readAndAdvance(shard, lastCheckpoint)`: resolve an iterator from the
checkpoint, fetch one batch, derive the next checkpoint, and attach the
continuation iff `moreToRead` holds of the response. -/
def readAndAdvance (fuel : ℕ) (lastCheckpoint : Checkpoint) (st : St) :
    Except JsError ShardReadCursor × St :=
  match getShardIteratorFromCheckpoint lastCheckpoint st with
  | (.error e, st') => (.error e, st')
  | (.ok shardIterator, st') =>
    match getOneBatchOfRecords fuel shardIterator
        lastCheckpoint.lastReadSequenceNumber st' with
    | (.error e, st'') => (.error e, st'')
    | (.ok resp, st'') =>
        let nextCheckpoint := getNextCheckpoint resp lastCheckpoint
        (.ok { records := resp.Records
               checkpoint := nextCheckpoint
               hasNext := moreToRead resp }, st'')

/-! ### Concrete scripted environments used by the theorems -/

/-- An initial environment with the given scripts, the batch size at its
process-start value, and an empty trace. -/
def mkSt (outs : List FetchOutcome) (iters : List String := [])
    (rnds : List JsRandom := []) : St :=
  { outcomes := outs, iterResults := iters, randoms := rnds,
    batchSize := INITIAL_BATCH_SIZE, events := [] }

/-- A generic transient (retryable) remote failure. -/
def transientError : JsErrorBase :=
  { name := "TransientError", message := "transient failure",
    code := "TransientFailure", retryable := true }

/-- The "position token expired" failure. -/
def expiredError : JsErrorBase :=
  { name := "ExpiredIteratorException", message := "iterator expired",
    code := "ExpiredIteratorException", retryable := true }

/-- The "request rate/throughput exceeded" failure. -/
def throughputError : JsErrorBase :=
  { name := "ProvisionedThroughputExceededException", message := "slow down",
    code := "ProvisionedThroughputExceededException", retryable := true }

/-- A failure not marked retryable. -/
def fatalError : JsErrorBase :=
  { name := "AccessDeniedException", message := "not allowed",
    code := "AccessDeniedException", retryable := false }

/-- A small successful response used by concrete runs. -/
def sampleResponse : GetRecordsResponse :=
  { Records := [], NextShardIterator := some "next-it", MillisBehindLatest := 5 }

/-- Number of backoff waits in a trace. -/
def waitCount (events : List Event) : ℕ :=
  events.countP fun ev => match ev with | .wait _ => true | _ => false

/-! ### Helper lemmas -/

theorem mem_of_last_eq {l : List α} {a : α} (h : last l = some a) : a ∈ l := by
  unfold last at h
  rcases List.mem_getLast?_eq_getLast (Option.mem_def.mpr h) with ⟨hne, ha⟩
  exact ha ▸ List.getLast_mem hne

theorem jsSetDedup_loop_mem (l : List String) :
    ∀ (acc : List String) (a : String),
      a ∈ l.foldl (fun acc x => if x ∈ acc then acc else acc ++ [x]) acc ↔
        a ∈ acc ∨ a ∈ l := by
  induction l with
  | nil => simp
  | cons x xs ih =>
      intro acc a
      by_cases hx : x ∈ acc
      · simp only [List.foldl_cons, if_pos hx, ih]
        constructor
        · rintro (h | h)
          · exact Or.inl h
          · exact Or.inr (List.mem_cons_of_mem _ h)
        · rintro (h | h)
          · exact Or.inl h
          · rcases List.mem_cons.mp h with rfl | h
            · exact Or.inl hx
            · exact Or.inr h
      · simp only [List.foldl_cons, if_neg hx, ih, List.mem_append,
          List.mem_singleton, List.mem_cons]
        tauto

theorem jsSetDedup_loop_nodup (l : List String) :
    ∀ acc : List String, acc.Nodup →
      (l.foldl (fun acc x => if x ∈ acc then acc else acc ++ [x]) acc).Nodup := by
  induction l with
  | nil => exact fun _ h => h
  | cons x xs ih =>
      intro acc hacc
      by_cases hx : x ∈ acc
      · simpa [hx] using ih acc hacc
      · simp only [List.foldl_cons, if_neg hx]
        refine ih _ (List.nodup_append.mpr ⟨hacc, List.nodup_singleton x, ?_⟩)
        intro a ha hax
        rw [List.mem_singleton] at hax
        subst hax
        exact hx ha

theorem mem_jsSetDedup {l : List String} {a : String} :
    a ∈ jsSetDedup l ↔ a ∈ l := by
  unfold jsSetDedup
  rw [jsSetDedup_loop_mem]
  simp

theorem jsSetDedup_nodup (l : List String) : (jsSetDedup l).Nodup :=
  jsSetDedup_loop_nodup l [] List.nodup_nil

theorem applyBatchSize_bounds (b : ℤ) (hlo : MIN_BATCH_SIZE ≤ b)
    (hhi : b ≤ MAX_BATCH_SIZE) (u : ℤ) :
    (MIN_BATCH_SIZE ≤ batchSizeWasSuccessful b u ∧
      batchSizeWasSuccessful b u ≤ MAX_BATCH_SIZE) ∧
    (MIN_BATCH_SIZE ≤ batchSizeWasUnsuccessful b u ∧
      batchSizeWasUnsuccessful b u ≤ MAX_BATCH_SIZE) := by
  unfold batchSizeWasSuccessful batchSizeWasUnsuccessful MIN_BATCH_SIZE MAX_BATCH_SIZE at *
  constructor
  · generalize jsRoundMul u 3 2 = r
    omega
  · generalize jsRoundMul u 1 2 = r
    omega

/-- One adjustment of the shared adaptive batch size: a successful fetch or a
rate-exceeded failure, each carrying the size used for that attempt. -/
inductive BatchSizeAdjustment where
  | success (usedBatchSize : ℤ)
  | rateExceeded (usedBatchSize : ℤ)
  deriving Repr, DecidableEq

/-- Apply one adjustment to the shared batch size. -/
def applyBatchSizeAdjustment (b : ℤ) : BatchSizeAdjustment → ℤ
  | .success u => batchSizeWasSuccessful b u
  | .rateExceeded u => batchSizeWasUnsuccessful b u

/-- Run a sequence of adjustments starting from the initial batch size. -/
def runBatchSizeAdjustments (l : List BatchSizeAdjustment) : ℤ :=
  l.foldl applyBatchSizeAdjustment INITIAL_BATCH_SIZE

theorem runBatchSize_loop_bounds :
    ∀ (l : List BatchSizeAdjustment) (b : ℤ),
      MIN_BATCH_SIZE ≤ b → b ≤ MAX_BATCH_SIZE →
      MIN_BATCH_SIZE ≤ l.foldl applyBatchSizeAdjustment b ∧
        l.foldl applyBatchSizeAdjustment b ≤ MAX_BATCH_SIZE := by
  intro l
  induction l with
  | nil => exact fun b h1 h2 => ⟨h1, h2⟩
  | cons a tl ih =>
      intro b h1 h2
      have hb := applyBatchSize_bounds b h1 h2
      cases a with
      | success u =>
          exact ih _ (hb u).1.1 (hb u).1.2
      | rateExceeded u =>
          exact ih _ (hb u).2.1 (hb u).2.2

/-! ### Claim theorems -/

/-- **C6.** The shared adaptive batch size is initialized to one quarter of
the maximum (2500) and, for every sequence of success and rate-exceeded
adjustments with arbitrary used-size arguments, remains bounded in
`[1, 10000]`: no sequence of successes pushes it above 10000 and no sequence
of rate-exceeded failures pushes it below 1. -/
theorem claim6_batch_size_bounds :
    INITIAL_BATCH_SIZE = MAX_BATCH_SIZE / 4 ∧ INITIAL_BATCH_SIZE = 2500 ∧
    ∀ l : List BatchSizeAdjustment,
      1 ≤ runBatchSizeAdjustments l ∧ runBatchSizeAdjustments l ≤ 10000 := by
  refine ⟨rfl, by decide, fun l => ?_⟩
  exact runBatchSize_loop_bounds l INITIAL_BATCH_SIZE (by decide) (by decide)

/-- **C5.** For every fetch response and previous checkpoint (with the
non-degeneracy conditions that sequence numbers carried by records or by the
previous checkpoint are non-empty strings), the derived checkpoint's
position token equals the response's `NextShardIterator`, and its last-read
sequence number is the last record's sequence number, falling back to the
previous checkpoint's value when the batch is empty; in the empty-stream
scenario (empty batch, empty previous checkpoint) it is null. -/
theorem claim5_checkpoint_derivation (resp : GetRecordsResponse)
    (lastCheckpoint : Checkpoint)
    (hrec : ∀ r ∈ resp.Records, r.SequenceNumber ≠ "")
    (hcp : lastCheckpoint.lastReadSequenceNumber ≠ some "") :
    (getNextCheckpoint resp lastCheckpoint).shardIterator =
        resp.NextShardIterator ∧
    (getNextCheckpoint resp lastCheckpoint).lastReadSequenceNumber =
      (match last resp.Records with
       | some r => some r.SequenceNumber
       | none => lastCheckpoint.lastReadSequenceNumber) ∧
    getNextCheckpoint
        { Records := [], NextShardIterator := none, MillisBehindLatest := 0 }
        {} =
      { shardIterator := none, lastReadSequenceNumber := none,
        timestamp := none } := by
  refine ⟨rfl, ?_, rfl⟩
  unfold getNextCheckpoint
  cases hl : last resp.Records with
  | some r =>
      have hr : r.SequenceNumber ≠ "" := hrec r (mem_of_last_eq hl)
      simp [hl, jsTruthyStr, hr]
  | none =>
      cases hcps : lastCheckpoint.lastReadSequenceNumber with
      | none => simp [hl, jsTruthyStr]
      | some s =>
          have hs : s ≠ "" := by
            intro hs
            exact hcp (by rw [hcps, hs])
          simp [hl, hcps, jsTruthyStr, hs]

/-- A concrete two-record response used by the C5 witness. -/
def twoRecordResponse : GetRecordsResponse :=
  { Records := [⟨"sq1"⟩, ⟨"sq2"⟩], NextShardIterator := some "nt",
    MillisBehindLatest := 3 }

/-- A concrete previous checkpoint used by the C5 witness. -/
def oldCheckpoint : Checkpoint := { lastReadSequenceNumber := some "old" }

/-- Witness for C5 at a concrete two-record response and a concrete previous
checkpoint. -/
theorem claim5_witness :
    ((∀ r ∈ twoRecordResponse.Records, r.SequenceNumber ≠ "") ∧
      oldCheckpoint.lastReadSequenceNumber ≠ some "") ∧
    (getNextCheckpoint twoRecordResponse oldCheckpoint).shardIterator =
        some "nt" ∧
    (getNextCheckpoint twoRecordResponse oldCheckpoint).lastReadSequenceNumber =
      (match last twoRecordResponse.Records with
       | some r => some r.SequenceNumber
       | none => oldCheckpoint.lastReadSequenceNumber) := by
  refine ⟨⟨by decide, by decide⟩, ?_⟩
  have h := claim5_checkpoint_derivation twoRecordResponse oldCheckpoint
    (by decide) (by decide)
  exact ⟨h.1, h.2.1⟩

/-- An iterator request through the retry executor against the scripted
environment: it succeeds on its first attempt with the next scripted token,
tracing exactly the one request. -/
theorem requestShardIterator_eq (iteratorType : String)
    (sequenceNumber : Option String) (timestamp : Option ℤ) (st : St) :
    requestShardIterator iteratorType sequenceNumber timestamp st =
      (.ok (st.iterResults.headD "scripted-iterator"),
       { st with
          events := st.events ++
            [.getShardIterator iteratorType sequenceNumber timestamp],
          iterResults := st.iterResults.tail }) := by
  simp [requestShardIterator, withRetry, withRetryRecursive, getShardIteratorOp,
    emitEvent, MAX_RETRIES]

/-- **C8.** Resolving a position token from a checkpoint follows exactly this
order: (a) a (truthy) position token carried by the checkpoint is reused
as-is, with no remote request; else (b) a (truthy) last-read sequence number
yields an `AFTER_SEQUENCE_NUMBER` request carrying that sequence number;
else (c) a present timestamp yields an `AT_TIMESTAMP` request carrying that
timestamp; else (d) a `TRIM_HORIZON` request is made. -/
theorem claim8_iterator_resolution_order (cp : Checkpoint) (st : St)
    (tok : String) (ir : List String) (hst : st.iterResults = tok :: ir) :
    (jsTruthyStr cp.shardIterator = true →
      getShardIteratorFromCheckpoint cp st = (.ok (cp.shardIterator.getD ""), st)) ∧
    (jsTruthyStr cp.shardIterator = false →
      jsTruthyStr cp.lastReadSequenceNumber = true →
      getShardIteratorFromCheckpoint cp st =
        (.ok tok,
         { st with
            events := st.events ++
              [.getShardIterator "AFTER_SEQUENCE_NUMBER"
                cp.lastReadSequenceNumber none],
            iterResults := ir })) ∧
    (jsTruthyStr cp.shardIterator = false →
      jsTruthyStr cp.lastReadSequenceNumber = false →
      cp.timestamp.isSome = true →
      getShardIteratorFromCheckpoint cp st =
        (.ok tok,
         { st with
            events := st.events ++
              [.getShardIterator "AT_TIMESTAMP" none cp.timestamp],
            iterResults := ir })) ∧
    (jsTruthyStr cp.shardIterator = false →
      jsTruthyStr cp.lastReadSequenceNumber = false →
      cp.timestamp = none →
      getShardIteratorFromCheckpoint cp st =
        (.ok tok,
         { st with
            events := st.events ++ [.getShardIterator "TRIM_HORIZON" none none],
            iterResults := ir })) := by
  refine ⟨fun h1 => ?_, fun h1 h2 => ?_, fun h1 h2 h3 => ?_, fun h1 h2 h3 => ?_⟩
  · simp [getShardIteratorFromCheckpoint, h1]
  · simp [getShardIteratorFromCheckpoint, h1, h2,
      getShardIteratorFromLastReadSequenceNumber, requestShardIterator_eq, hst]
  · simp [getShardIteratorFromCheckpoint, h1, h2, h3,
      getShardIteratorFromTimestamp, requestShardIterator_eq, hst]
  · simp [getShardIteratorFromCheckpoint, h1, h2, h3, requestShardIterator_eq,
      hst]

/-- Witness for C8: a checkpoint carrying only a last-read sequence number
resolves through an `AFTER_SEQUENCE_NUMBER` request for that number. -/
theorem claim8_witness :
    (jsTruthyStr (oldCheckpoint.shardIterator) = false ∧
      jsTruthyStr (oldCheckpoint.lastReadSequenceNumber) = true) ∧
    getShardIteratorFromCheckpoint oldCheckpoint (mkSt [] ["tok0"]) =
      (.ok "tok0",
       { mkSt [] ["tok0"] with
          events := [.getShardIterator "AFTER_SEQUENCE_NUMBER" (some "old") none],
          iterResults := [] }) := by
  refine ⟨⟨by decide, by decide⟩, ?_⟩
  have h := (claim8_iterator_resolution_order oldCheckpoint (mkSt [] ["tok0"])
    "tok0" [] rfl).2.1 (by decide) (by decide)
  simpa [mkSt, oldCheckpoint] using h

/-- A fetch attempt whose script answers with a successful response: it
returns the response, consumes one scripted outcome, traces one `getRecords`
call with the current batch size, and grows the batch size. -/
theorem getOneBatchOfRecords_success_eq (fuel : ℕ) (iter : String)
    (lastSeq : Option String) (resp : GetRecordsResponse)
    (rest : List FetchOutcome) (st : St)
    (ho : st.outcomes = .success resp :: rest) :
    getOneBatchOfRecords (fuel + 1) iter lastSeq st =
      (.ok resp,
       { st with
          outcomes := rest,
          events := st.events ++ [.getRecords iter st.batchSize],
          batchSize := batchSizeWasSuccessful st.batchSize st.batchSize }) := by
  simp [getOneBatchOfRecords, withRetry, withRetryRecursive, getOneBatchAttempt,
    emitEvent, ho, MAX_RETRIES]

/-- A checkpoint that still carries a (cached, unexpired) position token. -/
def cachedCheckpoint : Checkpoint := { shardIterator := some "it0" }

/-- **C1 (amended).** For every fetch response, the produced cursor carries
the `next` continuation iff the response reports a *nonzero*
`MillisBehindLatest` AND a truthy `NextShardIterator`; equivalently the
iteration transitions to exhausted (continuation omitted) when the response
reports zero milliseconds behind the head OR no next position token. -/
theorem claim1_amended_termination_rule (resp : GetRecordsResponse) :
    (readAndAdvance 1 cachedCheckpoint (mkSt [.success resp])).1 =
      .ok { records := resp.Records
            checkpoint := getNextCheckpoint resp cachedCheckpoint
            hasNext := decide (resp.MillisBehindLatest ≠ 0) &&
              jsTruthyStr resp.NextShardIterator } := by
  have h := getOneBatchOfRecords_success_eq 0 "it0" none resp []
    (mkSt [.success resp]) rfl
  simp [readAndAdvance, getShardIteratorFromCheckpoint, cachedCheckpoint,
    jsTruthyStr, h, moreToRead]

/-- A response that is fully caught up (zero lag) but still carries a next
position token. -/
def caughtUpResponse : GetRecordsResponse :=
  { Records := [], NextShardIterator := some "T2", MillisBehindLatest := 0 }

/-- **C1 is false as stated**: on a response with *zero* milliseconds behind
the head but a next position token still present, the claim says the
continuation is present and the iteration stays in has-more; the code omits
the continuation (`moreToRead` is the JS conjunction
`MillisBehindLatest && NextShardIterator`, which is falsy whenever the lag
is zero). -/
theorem claim1_counterexample :
    caughtUpResponse.MillisBehindLatest = 0 ∧
    caughtUpResponse.NextShardIterator = some "T2" ∧
    (readAndAdvance 1 cachedCheckpoint (mkSt [.success caughtUpResponse])).1 =
      .ok ⟨[], ⟨some "T2", none, none⟩, false⟩ := by
  exact ⟨rfl, rfl, rfl⟩

/-- Witness for C1 (amended) at a concrete not-caught-up response: nonzero
lag and a present token keep the continuation. -/
theorem claim1_witness :
    (readAndAdvance 1 cachedCheckpoint (mkSt [.success twoRecordResponse])).1 =
      .ok { records := twoRecordResponse.Records
            checkpoint := getNextCheckpoint twoRecordResponse cachedCheckpoint
            hasNext := true } := by
  have h := claim1_amended_termination_rule twoRecordResponse
  simpa [twoRecordResponse, jsTruthyStr] using h

/-- One unfolding of `withRetryRecursive`. -/
theorem withRetryRecursive_step (op : St → Except JsError α × St)
    (prevErrors : List JsError) (retries : ℕ) (backoff : ℤ)
    (backoffDither : Option ℤ) (st : St) :
    withRetryRecursive op prevErrors retries backoff backoffDither st =
      match op st with
      | (.ok a, st') => (.ok a, st')
      | (.error e, st') =>
        if e.isRetryable then
          match retries with
          | r + 1 =>
              withRetryRecursive op (prevErrors ++ [e]) r (backoff + backoff)
                none
                (if backoff ≠ 0 then waitStep backoff backoffDither st' else st')
          | 0 => (.error (.outOfRetries e prevErrors), st')
        else (.error (.nonRetryableWrap e prevErrors), st') := by
  rw [withRetryRecursive]

/-- One retry transition of `withRetryRecursive`: a retryable failure with
budget left and nonzero backoff waits and recurses — with doubled backoff
and the dither argument dropped (`none`). -/
theorem withRetryRecursive_retryStep (op : St → Except JsError α × St)
    (prevErrors : List JsError) (n : ℕ) (backoff : ℤ)
    (backoffDither : Option ℤ) (st : St) (e : JsError) (st' : St)
    (hop : op st = (.error e, st')) (hre : e.isRetryable = true)
    (hb : backoff ≠ 0) :
    withRetryRecursive op prevErrors (n + 1) backoff backoffDither st =
      withRetryRecursive op (prevErrors ++ [e]) n (backoff + backoff) none
        (waitStep backoff backoffDither st') := by
  rw [withRetryRecursive_step, hop]
  simp [hre, hb]

/-- The scripted run exhibiting the jitter slip: three consecutive transient
(retryable) failures, then a success; `Math.random` always answers `1/2`. -/
def nanJitterScript : St :=
  mkSt [.failure transientError, .failure transientError,
    .failure transientError, .success sampleResponse] []
    [⟨1, 2⟩, ⟨1, 2⟩, ⟨1, 2⟩]

/-- **C2 (code bug).** On the scripted run above, the wait before the first
retry is `10 + ⌊10 · 1/2⌋ = 15 ∈ [10, 20)` as the claim states, but the wait
before the second retry is `NaN` (modelled `none`): the recursive call in
`withRetryRecursive` passes only four arguments, so `backoffDither` is
`undefined` from the second retry on and `backoff + Math.floor(undefined *
Math.random())` is `NaN` — not a value in the claimed interval
`[10·2^(N-1), 2·10·2^(N-1))`. -/
theorem claim2_nan_jitter_after_first_retry :
    (getOneBatchOfRecords 1 "it" none nanJitterScript).2.events =
      [.getRecords "it" 2500, .wait (some 15), .getRecords "it" 2500,
       .wait none, .getRecords "it" 2500, .wait none, .getRecords "it" 2500] ∧
    ((10 : ℤ) ≤ 15 ∧ (15 : ℤ) < 20) ∧
    (∀ q : ℤ, 20 ≤ q → q < 40 →
      ((getOneBatchOfRecords 1 "it" none nanJitterScript).2.events).get? 3 ≠
        some (.wait (some q))) := by
  have hev : (getOneBatchOfRecords 1 "it" none nanJitterScript).2.events =
      [.getRecords "it" 2500, .wait (some 15), .getRecords "it" 2500,
       .wait none, .getRecords "it" 2500, .wait none,
       .getRecords "it" 2500] := by decide
  refine ⟨hev, ⟨by norm_num, by norm_num⟩, ?_⟩
  intro q _ _ hq
  rw [hev] at hq
  simp at hq

/-- The state after a fetch attempt that failed with a non-token-expired
error `e`: one scripted outcome consumed, one `getRecords` call traced, and
the batch size shrunk exactly when the failure was the throughput-exceeded
one. -/
def afterFailAttempt (iter : String) (e : JsErrorBase)
    (rest : List FetchOutcome) (st : St) : St :=
  { st with
      outcomes := rest,
      events := st.events ++ [.getRecords iter st.batchSize],
      batchSize :=
        if e.code = "ProvisionedThroughputExceededException" then
          batchSizeWasUnsuccessful st.batchSize st.batchSize
        else st.batchSize }

/-- A fetch attempt whose script answers with a non-token-expired failure:
the error is re-thrown to the retry executor and the state advances to
`afterFailAttempt`. -/
theorem getOneBatchAttempt_fail_eq
    (recur : String → Option String → St → Except JsError GetRecordsResponse × St)
    (iter : String) (lastSeq : Option String) (e : JsErrorBase)
    (rest : List FetchOutcome) (st : St)
    (ho : st.outcomes = .failure e :: rest)
    (hcode : e.code ≠ "ExpiredIteratorException") :
    getOneBatchAttempt recur iter lastSeq st =
      (.error (.base e), afterFailAttempt iter e rest st) := by
  by_cases h2 : e.code = "ProvisionedThroughputExceededException" <;>
    simp [getOneBatchAttempt, afterFailAttempt, emitEvent, ho, hcode, h2]

/-- A fetch attempt whose script answers with a successful response: the
response is returned, one scripted outcome is consumed, one `getRecords`
call is traced, and the batch size grows. -/
theorem getOneBatchAttempt_success_eq
    (recur : String → Option String → St → Except JsError GetRecordsResponse × St)
    (iter : String) (lastSeq : Option String) (resp : GetRecordsResponse)
    (rest : List FetchOutcome) (st : St)
    (ho : st.outcomes = .success resp :: rest) :
    getOneBatchAttempt recur iter lastSeq st =
      (.ok resp,
       { st with
          outcomes := rest,
          events := st.events ++ [.getRecords iter st.batchSize],
          batchSize := batchSizeWasSuccessful st.batchSize st.batchSize }) := by
  simp [getOneBatchAttempt, emitEvent, ho]

theorem waitCount_append (l1 l2 : List Event) :
    waitCount (l1 ++ l2) = waitCount l1 + waitCount l2 := by
  simp [waitCount, List.countP_append]

theorem waitCount_getRecords (evs : List Event) (iter : String) (b : ℤ) :
    waitCount (evs ++ [.getRecords iter b]) = waitCount evs := by
  simp [waitCount, List.countP_append, List.countP_cons]

theorem waitCount_wait (evs : List Event) (ms : Option ℤ) :
    waitCount (evs ++ [.wait ms]) = waitCount evs + 1 := by
  simp [waitCount, List.countP_append, List.countP_cons]

/-- Retry exhaustion: when every scripted attempt fails with a retryable,
non-token-expired error, a run with retry budget `es.length` performs the
`es` attempts plus the final one and fails with `OutOfRetriesError` bundling
the final error and all previous attempts' errors. -/
theorem withRetryRecursive_exhaust (fuel : ℕ) (iter : String)
    (lastSeq : Option String) :
    ∀ (es : List JsErrorBase) (elast : JsErrorBase) (prevErrors : List JsError)
      (backoff : ℤ) (dither : Option ℤ) (st : St) (rest : List FetchOutcome),
      (∀ e ∈ es, e.retryable = true ∧ e.code ≠ "ExpiredIteratorException") →
      elast.retryable = true → elast.code ≠ "ExpiredIteratorException" →
      st.outcomes = (es ++ [elast]).map .failure ++ rest →
      (withRetryRecursive
          (getOneBatchAttempt (getOneBatchOfRecords fuel) iter lastSeq)
          prevErrors es.length backoff dither st).1 =
        .error (.outOfRetries (.base elast) (prevErrors ++ es.map .base)) := by
  intro es
  induction es with
  | nil =>
      intro elast prev backoff dither st rest _ hr hc ho
      have h := getOneBatchAttempt_fail_eq (getOneBatchOfRecords fuel) iter
        lastSeq elast rest st (by simpa using ho) hc
      rw [List.length_nil, withRetryRecursive_step, h]
      simp [JsError.isRetryable, hr]
  | cons e tl ih =>
      intro elast prev backoff dither st rest hall hr hc ho
      have he := hall e (List.mem_cons_self _ _)
      have h := getOneBatchAttempt_fail_eq (getOneBatchOfRecords fuel) iter
        lastSeq e ((tl ++ [elast]).map .failure ++ rest) st
        (by simpa using ho) he.2
      have htl : ∀ x ∈ tl, x.retryable = true ∧
          x.code ≠ "ExpiredIteratorException" :=
        fun x hx => hall x (List.mem_cons_of_mem _ hx)
      rw [List.length_cons, withRetryRecursive_step, h]
      simp only [JsError.isRetryable, he.1, if_true]
      refine (ih elast (prev ++ [.base e]) (backoff + backoff) none _ rest
        htl hr hc ?_).trans ?_
      · split <;> rfl
      · simp

/-- `jsRoundMul u 3 2` is `Math.round(u * 1.5)`: `⌊u·(3/2) + 1/2⌋`. -/
theorem jsRoundMul_three_two (u : ℤ) :
    jsRoundMul u 3 2 = ⌊(u : ℚ) * (3/2) + 1/2⌋ := by
  have h : (u : ℚ) * (3/2) + 1/2 = ((2 * u * 3 + 2 : ℤ) : ℚ) / ((4 : ℕ) : ℚ) := by
    push_cast
    ring
  rw [h, Rat.floor_intCast_div_natCast]
  unfold jsRoundMul
  norm_num

/-- `jsRoundMul u 1 2` is `Math.round(u * 0.5)`: `⌊u·(1/2) + 1/2⌋`. -/
theorem jsRoundMul_one_two (u : ℤ) :
    jsRoundMul u 1 2 = ⌊(u : ℚ) * (1/2) + 1/2⌋ := by
  have h : (u : ℚ) * (1/2) + 1/2 = ((2 * u * 1 + 2 : ℤ) : ℚ) / ((4 : ℕ) : ℚ) := by
    push_cast
    ring
  rw [h, Rat.floor_intCast_div_natCast]
  unfold jsRoundMul
  norm_num

/-- **C4.** When all eleven consecutive attempts (the initial attempt plus
`MAX_RETRIES = 10` retries) fail with retryable (non-token-expired) errors,
the fetch fails with `OutOfRetriesError` bundling the final error and the
ten previous attempts' errors (eleven in total), and its message summarizes
the distinct error kinds seen: each kind once, duplicates removed. -/
theorem claim4_exhausted_retries_bundle (es : List JsErrorBase)
    (elast : JsErrorBase) (iter : String) (lastSeq : Option String) (st : St)
    (rest : List FetchOutcome)
    (hlen : es.length = MAX_RETRIES)
    (hall : ∀ e ∈ es, e.retryable = true ∧ e.code ≠ "ExpiredIteratorException")
    (hr : elast.retryable = true)
    (hc : elast.code ≠ "ExpiredIteratorException")
    (ho : st.outcomes = (es ++ [elast]).map .failure ++ rest) :
    (getOneBatchOfRecords 1 iter lastSeq st).1 =
      .error (.outOfRetries (.base elast) (es.map .base)) ∧
    (es.map JsError.base ++ [JsError.base elast]).length = 11 ∧
    (JsError.outOfRetries (.base elast) (es.map .base)).message =
      "Ran out of retries after 11 error(s): " ++
        String.intercalate ", "
          (jsSetDedup ((es ++ [elast]).map JsErrorBase.name)) ∧
    (jsSetDedup ((es ++ [elast]).map JsErrorBase.name)).Nodup ∧
    ∀ s, s ∈ jsSetDedup ((es ++ [elast]).map JsErrorBase.name) ↔
      s ∈ (es ++ [elast]).map JsErrorBase.name := by
  have hlen2 : (es.map JsError.base ++ [JsError.base elast]).length = 11 := by
    simp [hlen, MAX_RETRIES]
  refine ⟨?_, hlen2, ?_, jsSetDedup_nodup _, fun s => mem_jsSetDedup⟩
  · show (withRetryRecursive
        (getOneBatchAttempt (getOneBatchOfRecords 0) iter lastSeq) []
        MAX_RETRIES INITIAL_BACKOFF_MS
        (some (INITIAL_BACKOFF_MS * BACKOFF_DITHER_FACTOR)) st).1 = _
    rw [← hlen]
    exact (withRetryRecursive_exhaust 0 iter lastSeq es elast [] _ _ st rest
      hall hr hc ho).trans (by simp)
  · have hmap : (es.map JsError.base ++ [JsError.base elast]).map
        JsError.errName = (es ++ [elast]).map JsErrorBase.name := by
      simp [List.map_map, Function.comp, JsError.errName]
    simp only [JsError.message, hmap, hlen2]
    rw [show ("Ran out of retries after " ++ toString (11 : ℕ) ++
      " error(s): ") = "Ran out of retries after 11 error(s): " from by decide]

/-- A retryable error of kind A, for the C4 witness. -/
def errA : JsErrorBase :=
  { name := "ErrA", message := "a", code := "CodeA", retryable := true }

/-- A retryable error of kind B, for the C4 witness. -/
def errB : JsErrorBase :=
  { name := "ErrB", message := "b", code := "CodeB", retryable := true }

/-- Ten alternating retryable errors of two kinds, for the C4 witness. -/
def tenAltErrors : List JsErrorBase :=
  [errA, errB, errA, errB, errA, errB, errA, errB, errA, errB]

/-- Witness for C4: eleven failures of two alternating kinds bundle all
eleven errors and the message lists each kind once. -/
theorem claim4_witness :
    (tenAltErrors.length = MAX_RETRIES ∧
      (∀ e ∈ tenAltErrors, e.retryable = true ∧
        e.code ≠ "ExpiredIteratorException") ∧
      errA.retryable = true) ∧
    (getOneBatchOfRecords 1 "it" none
        (mkSt ((tenAltErrors ++ [errA]).map .failure))).1 =
      .error (.outOfRetries (.base errA) (tenAltErrors.map .base)) ∧
    (JsError.outOfRetries (.base errA) (tenAltErrors.map .base)).message =
      "Ran out of retries after 11 error(s): ErrA, ErrB" := by
  have h := claim4_exhausted_retries_bundle tenAltErrors errA "it" none
    (mkSt ((tenAltErrors ++ [errA]).map .failure)) []
    (by decide) (by decide) rfl (by decide) (by simp [mkSt])
  refine ⟨⟨by decide, by decide, rfl⟩, h.1, ?_⟩
  rw [h.2.2.1]
  decide

/-- Non-retryable termination: after any prefix of retryable failures within
budget, a failure whose `retryable` flag is falsy makes the executor fail at
once with `NonRetryableError` wrapping that error and the previous attempts'
errors, consuming no further scripted outcome and performing no further
backoff wait (exactly one wait per preceding retry). -/
theorem withRetryRecursive_nonretryable (fuel : ℕ) (iter : String)
    (lastSeq : Option String) :
    ∀ (es : List JsErrorBase) (enr : JsErrorBase) (prevErrors : List JsError)
      (m : ℕ) (backoff : ℤ) (dither : Option ℤ) (st : St)
      (rest : List FetchOutcome),
      (∀ e ∈ es, e.retryable = true ∧ e.code ≠ "ExpiredIteratorException") →
      enr.retryable = false → enr.code ≠ "ExpiredIteratorException" →
      backoff ≠ 0 →
      st.outcomes = es.map .failure ++ .failure enr :: rest →
      ∃ st' : St,
        withRetryRecursive
            (getOneBatchAttempt (getOneBatchOfRecords fuel) iter lastSeq)
            prevErrors (es.length + m) backoff dither st =
          (.error (.nonRetryableWrap (.base enr) (prevErrors ++ es.map .base)),
            st') ∧
        st'.outcomes = rest ∧
        waitCount st'.events = waitCount st.events + es.length := by
  intro es
  induction es with
  | nil =>
      intro enr prev m backoff dither st rest _ hnr hnc _ ho
      have h := getOneBatchAttempt_fail_eq (getOneBatchOfRecords fuel) iter
        lastSeq enr rest st (by simpa using ho) hnc
      refine ⟨afterFailAttempt iter enr rest st, ?_, rfl, ?_⟩
      · rw [withRetryRecursive_step, h]
        simp [JsError.isRetryable, hnr]
      · simp [afterFailAttempt, waitCount_getRecords]
  | cons e tl ih =>
      intro enr prev m backoff dither st rest hall hnr hnc hb ho
      have he := hall e (List.mem_cons_self _ _)
      have h := getOneBatchAttempt_fail_eq (getOneBatchOfRecords fuel) iter
        lastSeq e (tl.map .failure ++ .failure enr :: rest) st
        (by simpa using ho) he.2
      have htl : ∀ x ∈ tl, x.retryable = true ∧
          x.code ≠ "ExpiredIteratorException" :=
        fun x hx => hall x (List.mem_cons_of_mem _ hx)
      have hb2 : backoff + backoff ≠ 0 := by omega
      have hretr : (e :: tl).length + m = (tl.length + m) + 1 := by
        simp [Nat.add_right_comm]
      rw [hretr, withRetryRecursive_step, h]
      simp only [JsError.isRetryable, he.1, if_true]
      rw [if_pos hb]
      obtain ⟨st', h1, h2, h3⟩ := ih enr (prev ++ [JsError.base e]) m
        (backoff + backoff) none
        (waitStep backoff dither (afterFailAttempt iter e
          (tl.map .failure ++ .failure enr :: rest) st)) rest
        htl hnr hnc hb2
        (by simp [waitStep, takeRandom, emitEvent, afterFailAttempt])
      refine ⟨st', h1.trans (by simp), h2, ?_⟩
      have hw : waitCount (waitStep backoff dither
          (afterFailAttempt iter e
            (tl.map .failure ++ .failure enr :: rest) st)).events =
          waitCount st.events + 1 := by
        simp [waitStep, takeRandom, emitEvent, afterFailAttempt, waitCount,
          List.countP_append, List.countP_cons]
      rw [h3, hw]
      omega

/-- **C9.** A failure marked non-retryable (a caller-visible flag on the
error) makes the retry executor fail immediately — no backoff wait after the
failure and no further attempt — with a `NonRetryableError` wrapping that
error together with the previous attempts' errors (empty when it happens on
the first attempt). -/
theorem claim9_nonretryable_immediate (es : List JsErrorBase)
    (enr : JsErrorBase) (iter : String) (lastSeq : Option String) (st : St)
    (rest : List FetchOutcome)
    (hlen : es.length ≤ MAX_RETRIES)
    (hall : ∀ e ∈ es, e.retryable = true ∧ e.code ≠ "ExpiredIteratorException")
    (hnr : enr.retryable = false)
    (hnc : enr.code ≠ "ExpiredIteratorException")
    (ho : st.outcomes = es.map .failure ++ .failure enr :: rest) :
    ∃ st' : St,
      getOneBatchOfRecords 1 iter lastSeq st =
        (.error (.nonRetryableWrap (.base enr) (es.map .base)), st') ∧
      st'.outcomes = rest ∧
      waitCount st'.events = waitCount st.events + es.length := by
  obtain ⟨m, hm⟩ : ∃ m, MAX_RETRIES = es.length + m :=
    ⟨MAX_RETRIES - es.length, by omega⟩
  obtain ⟨st', h1, h2, h3⟩ := withRetryRecursive_nonretryable 0 iter lastSeq
    es enr [] m INITIAL_BACKOFF_MS
    (some (INITIAL_BACKOFF_MS * BACKOFF_DITHER_FACTOR)) st rest hall hnr hnc
    (by decide) ho
  refine ⟨st', ?_, h2, h3⟩
  show withRetryRecursive
      (getOneBatchAttempt (getOneBatchOfRecords 0) iter lastSeq) []
      MAX_RETRIES INITIAL_BACKOFF_MS
      (some (INITIAL_BACKOFF_MS * BACKOFF_DITHER_FACTOR)) st = _
  rw [hm]
  exact h1.trans (by simp)

/-- Witness for C9: a non-retryable failure on the very first attempt fails
immediately with an empty previous-attempts list and no wait. -/
theorem claim9_witness :
    (fatalError.retryable = false ∧
      fatalError.code ≠ "ExpiredIteratorException") ∧
    ∃ st' : St,
      getOneBatchOfRecords 1 "it" none (mkSt [.failure fatalError]) =
        (.error (.nonRetryableWrap (.base fatalError) []), st') ∧
      st'.outcomes = [] ∧ waitCount st'.events = 0 := by
  refine ⟨⟨rfl, by decide⟩, ?_⟩
  obtain ⟨st', h1, h2, h3⟩ := claim9_nonretryable_immediate [] fatalError
    "it" none (mkSt [.failure fatalError]) [] (by decide) (by simp) rfl
    (by decide) (by simp [mkSt])
  exact ⟨st', by simpa using h1, h2, by simpa [mkSt, waitCount] using h3⟩

/-- Eventual success within budget: when the script answers with retryable
(non-token-expired) failures on the first `es.length` attempts and a
success after them, a run with retry budget `es.length + m` returns the
successful response. -/
theorem withRetryRecursive_eventual_success (fuel : ℕ) (iter : String)
    (lastSeq : Option String) :
    ∀ (es : List JsErrorBase) (resp : GetRecordsResponse)
      (prevErrors : List JsError) (m : ℕ) (backoff : ℤ) (dither : Option ℤ)
      (st : St) (rest : List FetchOutcome),
      (∀ e ∈ es, e.retryable = true ∧ e.code ≠ "ExpiredIteratorException") →
      backoff ≠ 0 →
      st.outcomes = es.map .failure ++ .success resp :: rest →
      ∃ st' : St,
        withRetryRecursive
            (getOneBatchAttempt (getOneBatchOfRecords fuel) iter lastSeq)
            prevErrors (es.length + m) backoff dither st = (.ok resp, st') ∧
        st'.outcomes = rest := by
  intro es
  induction es with
  | nil =>
      intro resp prev m backoff dither st rest _ _ ho
      have h := getOneBatchAttempt_success_eq (getOneBatchOfRecords fuel) iter
        lastSeq resp rest st (by simpa using ho)
      refine ⟨{ st with
          outcomes := rest,
          events := st.events ++ [.getRecords iter st.batchSize],
          batchSize := batchSizeWasSuccessful st.batchSize st.batchSize },
        ?_, rfl⟩
      rw [withRetryRecursive_step, h]
  | cons e tl ih =>
      intro resp prev m backoff dither st rest hall hb ho
      have he := hall e (List.mem_cons_self _ _)
      have h := getOneBatchAttempt_fail_eq (getOneBatchOfRecords fuel) iter
        lastSeq e (tl.map .failure ++ .success resp :: rest) st
        (by simpa using ho) he.2
      have htl : ∀ x ∈ tl, x.retryable = true ∧
          x.code ≠ "ExpiredIteratorException" :=
        fun x hx => hall x (List.mem_cons_of_mem _ hx)
      have hb2 : backoff + backoff ≠ 0 := by omega
      have hretr : (e :: tl).length + m = (tl.length + m) + 1 := by
        simp [Nat.add_right_comm]
      rw [hretr, withRetryRecursive_step, h]
      simp only [JsError.isRetryable, he.1, if_true]
      rw [if_pos hb]
      obtain ⟨st', h1, h2⟩ := ih resp (prev ++ [JsError.base e]) m
        (backoff + backoff) none
        (waitStep backoff dither (afterFailAttempt iter e
          (tl.map .failure ++ .success resp :: rest) st)) rest
        htl hb2
        (by simp [waitStep, takeRandom, emitEvent, afterFailAttempt])
      exact ⟨st', h1, h2⟩

/-- **C3.** On a "position token expired" fetch failure with a last known
sequence number present, the attempt derives a fresh token through an
`AFTER_SEQUENCE_NUMBER` request carrying that sequence number (never the
expired token), with no backoff wait in between, and re-issues the whole
fetch as a fresh `getOneBatchOfRecords` call — a fresh `withRetry` with a
full retry budget of its own.  Concretely, an expired token followed by ten
rate-exceeded failures and then a success still succeeds: the recovery
consumed none of the ten-retry budget visible to the caller. -/
theorem claim3_token_expiry_recovery (fuel : ℕ) (iter s : String)
    (e : JsErrorBase) (st : St) (rest : List FetchOutcome) (tok : String)
    (ir : List String)
    (hs : s ≠ "")
    (he : e.code = "ExpiredIteratorException")
    (ho : st.outcomes = .failure e :: rest)
    (hi : st.iterResults = tok :: ir) :
    (∀ (resp : GetRecordsResponse) (st' : St),
      getOneBatchOfRecords fuel tok (some s)
          { st with
              outcomes := rest,
              iterResults := ir,
              events := st.events ++
                [.getRecords iter st.batchSize,
                 .getShardIterator "AFTER_SEQUENCE_NUMBER" (some s) none] } =
        (.ok resp, st') →
      getOneBatchOfRecords (fuel + 1) iter (some s) st = (.ok resp, st')) ∧
    (getOneBatchOfRecords 2 "expired-iter" (some "sq")
        (mkSt (.failure expiredError ::
          (List.replicate MAX_RETRIES (.failure throughputError) ++
            [.success sampleResponse])) ["fresh-iter"])).1 =
      .ok sampleResponse := by
  constructor
  · intro resp st' hrec
    have hatt : getOneBatchAttempt (getOneBatchOfRecords fuel) iter (some s)
        st =
        getOneBatchOfRecords fuel tok (some s)
          { st with
              outcomes := rest,
              iterResults := ir,
              events := st.events ++
                [.getRecords iter st.batchSize,
                 .getShardIterator "AFTER_SEQUENCE_NUMBER" (some s) none] } := by
      simp [getOneBatchAttempt, emitEvent, ho, he,
        getShardIteratorFromLastReadSequenceNumber, jsTruthyStr, hs,
        requestShardIterator_eq, hi, List.append_assoc]
    have hop := hatt.trans hrec
    show withRetryRecursive
        (getOneBatchAttempt (getOneBatchOfRecords fuel) iter (some s)) []
        MAX_RETRIES INITIAL_BACKOFF_MS
        (some (INITIAL_BACKOFF_MS * BACKOFF_DITHER_FACTOR)) st = (.ok resp, st')
    rw [withRetryRecursive_step, hop]
  · have hatt : getOneBatchAttempt (getOneBatchOfRecords 1) "expired-iter"
        (some "sq")
        (mkSt (.failure expiredError ::
          (List.replicate MAX_RETRIES (.failure throughputError) ++
            [.success sampleResponse])) ["fresh-iter"]) =
        getOneBatchOfRecords 1 "fresh-iter" (some "sq")
          { outcomes := List.replicate MAX_RETRIES (.failure throughputError) ++
              [.success sampleResponse],
            iterResults := [], randoms := [], batchSize := 2500,
            events := [.getRecords "expired-iter" 2500,
              .getShardIterator "AFTER_SEQUENCE_NUMBER" (some "sq") none] } := by
      simp [getOneBatchAttempt, emitEvent, mkSt, expiredError,
        getShardIteratorFromLastReadSequenceNumber, jsTruthyStr,
        requestShardIterator_eq, INITIAL_BATCH_SIZE, MAX_BATCH_SIZE]
    obtain ⟨st', h1, _⟩ := withRetryRecursive_eventual_success 0 "fresh-iter"
      (some "sq") (List.replicate MAX_RETRIES throughputError) sampleResponse
      [] 0 INITIAL_BACKOFF_MS
      (some (INITIAL_BACKOFF_MS * BACKOFF_DITHER_FACTOR))
      { outcomes := List.replicate MAX_RETRIES (.failure throughputError) ++
          [.success sampleResponse],
        iterResults := [], randoms := [], batchSize := 2500,
        events := [.getRecords "expired-iter" 2500,
          .getShardIterator "AFTER_SEQUENCE_NUMBER" (some "sq") none] } []
      (by
        intro x hx
        rw [List.eq_of_mem_replicate hx]
        exact ⟨rfl, by decide⟩)
      (by decide)
      (by simp [List.map_replicate])
    have hinner : getOneBatchOfRecords 1 "fresh-iter" (some "sq")
        { outcomes := List.replicate MAX_RETRIES (.failure throughputError) ++
            [.success sampleResponse],
          iterResults := [], randoms := [], batchSize := 2500,
          events := [.getRecords "expired-iter" 2500,
            .getShardIterator "AFTER_SEQUENCE_NUMBER" (some "sq") none] } =
        (.ok sampleResponse, st') := by
      rw [show (1 : ℕ) = 0 + 1 from rfl, getOneBatchOfRecords_succ]
      rw [show MAX_RETRIES =
        (List.replicate MAX_RETRIES throughputError).length + 0 from by simp]
      exact h1
    rw [show (2 : ℕ) = 1 + 1 from rfl, getOneBatchOfRecords_succ,
      withRetryRecursive_step, hatt.trans hinner]

/-- Witness for C3: an expired token with a known sequence number recovers
through `AFTER_SEQUENCE_NUMBER`, the re-issued fetch succeeds, and the trace
shows fetch / token request / fetch with no wait. -/
theorem claim3_witness :
    getOneBatchOfRecords 2 "old" (some "sq")
        (mkSt [.failure expiredError, .success sampleResponse] ["fresh"]) =
      (.ok sampleResponse,
       { outcomes := [], iterResults := [], randoms := [],
         batchSize := 3750,
         events := [.getRecords "old" 2500,
           .getShardIterator "AFTER_SEQUENCE_NUMBER" (some "sq") none,
           .getRecords "fresh" 2500] }) := by
  have hinner : getOneBatchOfRecords 1 "fresh" (some "sq")
      { outcomes := [.success sampleResponse], iterResults := [],
        randoms := [], batchSize := 2500,
        events := [.getRecords "old" 2500,
          .getShardIterator "AFTER_SEQUENCE_NUMBER" (some "sq") none] } =
      (.ok sampleResponse,
       { outcomes := [], iterResults := [], randoms := [],
         batchSize := 3750,
         events := [.getRecords "old" 2500,
           .getShardIterator "AFTER_SEQUENCE_NUMBER" (some "sq") none,
           .getRecords "fresh" 2500] }) :=
    (getOneBatchOfRecords_success_eq 0 "fresh" (some "sq") sampleResponse []
      { outcomes := [.success sampleResponse], iterResults := [],
        randoms := [], batchSize := 2500,
        events := [.getRecords "old" 2500,
          .getShardIterator "AFTER_SEQUENCE_NUMBER" (some "sq") none] }
      rfl).trans
      (by simp [batchSizeWasSuccessful, jsRoundMul, MAX_BATCH_SIZE])
  exact (claim3_token_expiry_recovery 1 "old" "sq" expiredError
    (mkSt [.failure expiredError, .success sampleResponse] ["fresh"])
    [.success sampleResponse] "fresh" [] (by decide) rfl rfl rfl).1
    sampleResponse _ hinner

/-- **C10.** On a "position token expired" fetch failure when the checkpoint
carries no last-read sequence number, the recovery requests a fresh token of
type `TRIM_HORIZON` (the start of the shard) and re-issues the fetch with
it; concretely, an expiry before any record has been read restarts the read
from the shard's oldest retained position and succeeds rather than
failing. -/
theorem claim10_trim_horizon_recovery (fuel : ℕ) (iter : String)
    (e : JsErrorBase) (st : St) (rest : List FetchOutcome) (tok : String)
    (ir : List String)
    (he : e.code = "ExpiredIteratorException")
    (ho : st.outcomes = .failure e :: rest)
    (hi : st.iterResults = tok :: ir) :
    (∀ (resp : GetRecordsResponse) (st' : St),
      getOneBatchOfRecords fuel tok none
          { st with
              outcomes := rest,
              iterResults := ir,
              events := st.events ++
                [.getRecords iter st.batchSize,
                 .getShardIterator "TRIM_HORIZON" none none] } =
        (.ok resp, st') →
      getOneBatchOfRecords (fuel + 1) iter none st = (.ok resp, st')) ∧
    getOneBatchOfRecords 2 "old-iter" none
        (mkSt [.failure expiredError, .success sampleResponse]
          ["fresh-iter"]) =
      (.ok sampleResponse,
       { outcomes := [], iterResults := [], randoms := [],
         batchSize := 3750,
         events := [.getRecords "old-iter" 2500,
           .getShardIterator "TRIM_HORIZON" none none,
           .getRecords "fresh-iter" 2500] }) := by
  constructor
  · intro resp st' hrec
    have hatt : getOneBatchAttempt (getOneBatchOfRecords fuel) iter none st =
        getOneBatchOfRecords fuel tok none
          { st with
              outcomes := rest,
              iterResults := ir,
              events := st.events ++
                [.getRecords iter st.batchSize,
                 .getShardIterator "TRIM_HORIZON" none none] } := by
      simp [getOneBatchAttempt, emitEvent, ho, he,
        getShardIteratorFromLastReadSequenceNumber, jsTruthyStr,
        requestShardIterator_eq, hi, List.append_assoc]
    have hop := hatt.trans hrec
    show withRetryRecursive
        (getOneBatchAttempt (getOneBatchOfRecords fuel) iter none) []
        MAX_RETRIES INITIAL_BACKOFF_MS
        (some (INITIAL_BACKOFF_MS * BACKOFF_DITHER_FACTOR)) st = (.ok resp, st')
    rw [withRetryRecursive_step, hop]
  · have hatt : getOneBatchAttempt (getOneBatchOfRecords 1) "old-iter" none
        (mkSt [.failure expiredError, .success sampleResponse]
          ["fresh-iter"]) =
        getOneBatchOfRecords 1 "fresh-iter" none
          { outcomes := [.success sampleResponse],
            iterResults := [], randoms := [], batchSize := 2500,
            events := [.getRecords "old-iter" 2500,
              .getShardIterator "TRIM_HORIZON" none none] } := by
      simp [getOneBatchAttempt, emitEvent, mkSt, expiredError,
        getShardIteratorFromLastReadSequenceNumber, jsTruthyStr,
        requestShardIterator_eq, INITIAL_BATCH_SIZE, MAX_BATCH_SIZE]
    have hinner2 : getOneBatchOfRecords 1 "fresh-iter" none
        { outcomes := [.success sampleResponse],
          iterResults := [], randoms := [], batchSize := 2500,
          events := [.getRecords "old-iter" 2500,
            .getShardIterator "TRIM_HORIZON" none none] } =
        (.ok sampleResponse,
         { outcomes := [], iterResults := [], randoms := [],
           batchSize := 3750,
           events := [.getRecords "old-iter" 2500,
             .getShardIterator "TRIM_HORIZON" none none,
             .getRecords "fresh-iter" 2500] }) :=
      (getOneBatchOfRecords_success_eq 0 "fresh-iter" none sampleResponse []
        { outcomes := [.success sampleResponse],
          iterResults := [], randoms := [], batchSize := 2500,
          events := [.getRecords "old-iter" 2500,
            .getShardIterator "TRIM_HORIZON" none none] } rfl).trans
        (by simp [batchSizeWasSuccessful, jsRoundMul, MAX_BATCH_SIZE])
    rw [show (2 : ℕ) = 1 + 1 from rfl, getOneBatchOfRecords_succ,
      withRetryRecursive_step, hatt.trans hinner2]

/-- Witness for C10: the general recovery step applied at a concrete expired
fetch with an empty checkpoint. -/
theorem claim10_witness :
    getOneBatchOfRecords 2 "it0" none
        (mkSt [.failure expiredError, .success sampleResponse] ["tok1"]) =
      (.ok sampleResponse,
       { outcomes := [], iterResults := [], randoms := [],
         batchSize := 3750,
         events := [.getRecords "it0" 2500,
           .getShardIterator "TRIM_HORIZON" none none,
           .getRecords "tok1" 2500] }) := by
  have hinner : getOneBatchOfRecords 1 "tok1" none
      { outcomes := [.success sampleResponse], iterResults := [],
        randoms := [], batchSize := 2500,
        events := [.getRecords "it0" 2500,
          .getShardIterator "TRIM_HORIZON" none none] } =
      (.ok sampleResponse,
       { outcomes := [], iterResults := [], randoms := [],
         batchSize := 3750,
         events := [.getRecords "it0" 2500,
           .getShardIterator "TRIM_HORIZON" none none,
           .getRecords "tok1" 2500] }) :=
    (getOneBatchOfRecords_success_eq 0 "tok1" none sampleResponse []
      { outcomes := [.success sampleResponse], iterResults := [],
        randoms := [], batchSize := 2500,
        events := [.getRecords "it0" 2500,
          .getShardIterator "TRIM_HORIZON" none none] } rfl).trans
      (by simp [batchSizeWasSuccessful, jsRoundMul, MAX_BATCH_SIZE])
  exact (claim10_trim_horizon_recovery 1 "it0" expiredError
    (mkSt [.failure expiredError, .success sampleResponse] ["tok1"])
    [.success sampleResponse] "tok1" [] rfl rfl rfl).1
    sampleResponse _ hinner

/-- **C7.** The batch-size adjustments compute exactly the claimed formulas
against the size `u` actually used for the attempt (a separate argument from
the possibly-changed current value `b`): on success
`min(10000, max(b, round(u·1.5)))`, on a rate-exceeded failure
`max(1, min(b, round(u·0.5)))` — and, in a run whose first attempt fails
rate-exceeded and whose second succeeds, the failure is re-raised to the
retry executor (which performs its backoff wait and retries), the second
attempt uses the shrunk size, and the final size is the grown value of the
shrunk one. -/
theorem claim7_batch_size_adjustment (iter : String)
    (lastSeq : Option String) (st : St) (e : JsErrorBase)
    (resp : GetRecordsResponse) (rest : List FetchOutcome) (r : JsRandom)
    (rs : List JsRandom)
    (he : e.code = "ProvisionedThroughputExceededException")
    (her : e.retryable = true)
    (ho : st.outcomes = .failure e :: .success resp :: rest)
    (hr : st.randoms = r :: rs) :
    (∀ b u : ℤ, batchSizeWasSuccessful b u =
      min 10000 (max b ⌊(u : ℚ) * (3/2) + 1/2⌋)) ∧
    (∀ b u : ℤ, batchSizeWasUnsuccessful b u =
      max 1 (min b ⌊(u : ℚ) * (1/2) + 1/2⌋)) ∧
    getOneBatchOfRecords 1 iter lastSeq st =
      (.ok resp,
       { st with
          outcomes := rest,
          randoms := rs,
          batchSize := batchSizeWasSuccessful
            (batchSizeWasUnsuccessful st.batchSize st.batchSize)
            (batchSizeWasUnsuccessful st.batchSize st.batchSize),
          events := st.events ++
            [.getRecords iter st.batchSize,
             .wait (some (INITIAL_BACKOFF_MS + jsFloorMulRandom
               (INITIAL_BACKOFF_MS * BACKOFF_DITHER_FACTOR) r)),
             .getRecords iter
               (batchSizeWasUnsuccessful st.batchSize st.batchSize)] }) := by
  refine ⟨fun b u => by
      simp [batchSizeWasSuccessful, MAX_BATCH_SIZE, jsRoundMul_three_two],
    fun b u => by
      simp [batchSizeWasUnsuccessful, MIN_BATCH_SIZE, jsRoundMul_one_two],
    ?_⟩
  have h1 := getOneBatchAttempt_fail_eq (getOneBatchOfRecords 0) iter lastSeq
    e (.success resp :: rest) st (by simpa using ho) (by simp [he])
  rw [show (1 : ℕ) = 0 + 1 from rfl, getOneBatchOfRecords_succ]
  rw [show MAX_RETRIES = 9 + 1 from rfl]
  rw [withRetryRecursive_retryStep
    (getOneBatchAttempt (getOneBatchOfRecords 0) iter lastSeq) [] 9
    INITIAL_BACKOFF_MS (some (INITIAL_BACKOFF_MS * BACKOFF_DITHER_FACTOR)) st
    (JsError.base e) (afterFailAttempt iter e (.success resp :: rest) st) h1
    (by simp [JsError.isRetryable, her]) (by decide)]
  rw [withRetryRecursive_step,
    getOneBatchAttempt_success_eq (getOneBatchOfRecords 0) iter lastSeq resp
      rest (waitStep INITIAL_BACKOFF_MS
        (some (INITIAL_BACKOFF_MS * BACKOFF_DITHER_FACTOR))
        (afterFailAttempt iter e (.success resp :: rest) st))
      (by simp [waitStep, takeRandom, emitEvent, afterFailAttempt])]
  simp [waitStep, takeRandom, emitEvent, afterFailAttempt, hr, he,
    List.append_assoc]

/-- Witness for C7 at a concrete throttled-then-successful run. -/
theorem claim7_witness :
    (throughputError.code = "ProvisionedThroughputExceededException" ∧
      throughputError.retryable = true) ∧
    getOneBatchOfRecords 1 "it" none
        (mkSt [.failure throughputError, .success sampleResponse] []
          [⟨1, 2⟩]) =
      (.ok sampleResponse,
       { outcomes := [], iterResults := [], randoms := [],
         batchSize := batchSizeWasSuccessful 1250 1250,
         events := [.getRecords "it" 2500,
           .wait (some (INITIAL_BACKOFF_MS + jsFloorMulRandom
             (INITIAL_BACKOFF_MS * BACKOFF_DITHER_FACTOR) ⟨1, 2⟩)),
           .getRecords "it" 1250] }) := by
  refine ⟨⟨rfl, rfl⟩, ?_⟩
  have h := (claim7_batch_size_adjustment "it" none
    (mkSt [.failure throughputError, .success sampleResponse] [] [⟨1, 2⟩])
    throughputError sampleResponse [] ⟨1, 2⟩ [] rfl rfl rfl rfl).2.2
  refine h.trans ?_
  simp [mkSt, batchSizeWasUnsuccessful, jsRoundMul, MIN_BATCH_SIZE,
    INITIAL_BATCH_SIZE, MAX_BATCH_SIZE]

end ReadKinesis
